import Mathlib

/-!
Shallow embedding of the ModuLux provisioning firmware (src/main.cpp).

Time is modelled in milliseconds as `Nat`; the only time consumers are the
explicit `delay` calls of the source, so every blocking function threads an
absolute clock value through its computation.  The wireless radio is
abstracted by a status oracle `status : Nat → Bool` giving, for each absolute
time, whether `WiFi.status()` would report `WL_CONNECTED` at that instant.
-/

namespace Modulux

/-- Built-in placeholder ssid (`DUMMY_SSID` in the source). -/
def DUMMY_SSID : String := "DummY"

/-- Built-in placeholder password (`DUMMY_PASS` in the source). -/
def DUMMY_PASS : String := "dummy001"

/-- Maximum station connection attempts (`MAX_RETRIES`). -/
def MAX_RETRIES : Nat := 5

/-- Per-attempt connect timeout in ms (`CONNECT_TIMEOUT_MS`). -/
def CONNECT_TIMEOUT_MS : Nat := 10000

/-- Idle timeout for the setup access point in ms (`AP_IDLE_TIMEOUT_MS`). -/
def AP_IDLE_TIMEOUT_MS : Nat := 10601000

/-- Cap for the exponential backoff in ms (`maxBackoffMs` in `tryConnectStation`). -/
def maxBackoffMs : Nat := 8000

/-- Events emitted by the connection manager: the start of a numbered
station-connect attempt, and a blocking backoff wait of a given duration. -/
inductive ConnEvent where
  | attempt (i : Nat)
  | backoff (ms : Nat)
deriving DecidableEq, Repr

/-- Number of `attempt` events in a trace. -/
def attemptCount : List ConnEvent → Nat
  | [] => 0
  | ConnEvent.attempt _ :: rest => attemptCount rest + 1
  | ConnEvent.backoff _ :: rest => attemptCount rest

/-- Durations of the `backoff` events of a trace, in order. -/
def backoffDurations : List ConnEvent → List Nat
  | [] => []
  | ConnEvent.attempt _ :: rest => backoffDurations rest
  | ConnEvent.backoff ms :: rest => ms :: backoffDurations rest

/-- Backoff duration after the failed attempt of index `attempt`:
`1000UL << min(attempt, 3)`, then capped at `maxBackoffMs`. -/
def backoffMs (attempt : Nat) : Nat :=
  let b := 1000 * 2 ^ (min attempt 3)
  if b > maxBackoffMs then maxBackoffMs else b

/-- Number of poll iterations of the inner `while (millis() - start < timeoutMs)`
loop when the status never turns connected: polls happen at elapsed times
`0, 100, 200, …` and the loop exits at the first multiple of 100 that is
`≥ timeoutMs`. -/
def pollTimes (timeoutMs : Nat) : Nat := (timeoutMs + 99) / 100

/-- The polling loop of both connect functions: starting at absolute time `t`,
check the status; on connected return immediately with the current time,
otherwise `delay(100)` and retry, for `n` polls in total.  Returns the result
together with the absolute time at which the loop exits. -/
def pollLoop (status : Nat → Bool) (t : Nat) : Nat → Bool × Nat
  | 0 => (false, t)
  | n + 1 => if status t then (true, t) else pollLoop status (t + 100) n

/-- The attempt loop of `tryConnectStation`.  `attempt` is the index of the
next attempt and the recursion runs over the remaining attempt budget.  Each
attempt performs `WiFi.disconnect(true, true); delay(50)` (50 ms), then polls
for the per-attempt timeout; on timeout it waits the capped exponential
backoff before the next attempt — the `delay(backoff)` of the source sits
inside the `for` body, so it also runs after the final failed attempt.
Returns (result, exit time, event trace). -/
def stationLoop (status : Nat → Bool) (timeoutMs attempt t : Nat) :
    Nat → Bool × Nat × List ConnEvent
  | 0 => (false, t, [])
  | n + 1 =>
    let t1 := t + 50
    match pollLoop status t1 (pollTimes timeoutMs) with
    | (true, tEnd) => (true, tEnd, [ConnEvent.attempt attempt])
    | (false, tEnd) =>
      let b := backoffMs attempt
      let r := stationLoop status timeoutMs (attempt + 1) (tEnd + b) n
      (r.1, r.2.1, ConnEvent.attempt attempt :: ConnEvent.backoff b :: r.2.2)

/-- Model of `tryConnectStation(ssid, pass, maxRetries, timeoutMs)` run with
the radio status oracle `status`, starting at absolute time `t`.  The ssid and
password only parameterise the radio, which the oracle abstracts. -/
def tryConnectStation (status : Nat → Bool) (ssid pass : String)
    (maxRetries timeoutMs t : Nat) : Bool × Nat × List ConnEvent :=
  let _ := ssid
  let _ := pass
  stationLoop status timeoutMs 0 t maxRetries

/-- Model of `tryConnectWhileAp(ssid, pass, maxRetries, timeoutMs)`: the
source selects `WIFI_AP_STA`, calls `WiFi.begin` once and runs a single
polling loop; the `maxRetries` parameter is accepted but never read. -/
def tryConnectWhileAp (status : Nat → Bool) (ssid pass : String)
    (maxRetries timeoutMs t : Nat) : Bool × Nat × List ConnEvent :=
  let _ := ssid
  let _ := pass
  let _ := maxRetries
  let r := pollLoop status t (pollTimes timeoutMs)
  (r.1, r.2, [ConnEvent.attempt 0])

/-- The persistent key-value store, namespace "wifi": keys `ssid`, `pass`,
`prov`.  A missing key reads as the default of the `get` call (`""` for the
strings, `0` for `prov`), so the store is modelled by the values those reads
produce. -/
structure Store where
  ssid : String
  pass : String
  prov : Nat
deriving DecidableEq, Repr

/-- Model of `loadCredentialsFromNVS`: `prefs.getUChar("prov", 0)` converted
to `bool` is true exactly when the byte is nonzero; then either the stored
pair or the dummy pair becomes the working copy `(currentSsid, currentPass)`. -/
def loadCredentialsFromNVS (st : Store) : String × String :=
  if st.prov ≠ 0 then (st.ssid, st.pass) else (DUMMY_SSID, DUMMY_PASS)

/-- Model of `saveCredentialsToNVS`: writes both strings and sets `prov` to 1. -/
def saveCredentialsToNVS (ssid pass : String) (st : Store) : Store :=
  let _ := st
  { ssid := ssid, pass := pass, prov := 1 }

/-- Model of `performFactoryReset`'s store effect: `prefs.clear()` erases all
keys (reads fall back to defaults), then `prefs.putUChar("prov", 0)`. -/
def performFactoryReset (st : Store) : Store :=
  let _ := st
  { ssid := "", pass := "", prov := 0 }

/-- The `RunState` enum of the source. -/
inductive RunState where
  | CONNECTING
  | AP_SETUP
  | CONNECTED
deriving DecidableEq, Repr

/-- The observable controller state: `runState`, the credential working copy,
the persisted store, whether the HTTP and DNS services are running, and the
two deadline timestamps (`apShutdownAt = 0` means no scheduled shutdown). -/
structure Sys where
  runState : RunState
  currentSsid : String
  currentPass : String
  store : Store
  serverRunning : Bool
  dnsRunning : Bool
  lastHttpActivityMs : Nat
  apShutdownAt : Nat
deriving DecidableEq, Repr

/-- An HTTP response: status code and body. -/
structure HttpResponse where
  code : Nat
  body : String
deriving DecidableEq, Repr

/-- Connection-manager invocations recorded by the controller model, with the
arguments the source passes. -/
inductive Call where
  | connectStation (ssid pass : String) (maxRetries timeoutMs : Nat)
  | connectWhileAp (ssid pass : String) (maxRetries timeoutMs : Nat)
deriving DecidableEq, Repr

/-- The environment of one controller step: the current `millis()` value, the
HTTP request (if any) that `server.handleClient()` dispatches this tick, the
outcome the radio would give a station-connect attempt made this tick, and
the local IP the radio reports when connected. -/
structure Env where
  now : Nat
  request : Option (String × String)
  connectOk : Bool
  localIp : String

/-- Model of `handleSave`: validates `ssid` non-empty and `pass` of length at
least 8; on failure answers 400 touching nothing but the activity timestamp;
on success persists to NVS, updates the working copy, then attempts
`tryConnectWhileAp(ssid, pass, MAX_RETRIES, CONNECT_TIMEOUT_MS)` (outcome
`env.connectOk`), answering 200 and scheduling AP shutdown in 40 s, or 500
staying in AP_SETUP.  Returns (response, new state, connect calls made). -/
def handleSave (env : Env) (ssid pass : String) (s : Sys) :
    HttpResponse × Sys × List Call :=
  if ssid.length = 0 ∨ pass.length < 8 then
    (⟨400, "Invalid SSID or password (min 8 chars)"⟩,
     { s with lastHttpActivityMs := env.now }, [])
  else
    let s1 := { s with store := saveCredentialsToNVS ssid pass s.store,
                       currentSsid := ssid, currentPass := pass }
    let calls := [Call.connectWhileAp ssid pass MAX_RETRIES CONNECT_TIMEOUT_MS]
    if env.connectOk then
      (⟨200, "Connected to " ++ ssid ++ " IP: " ++ env.localIp ++ "\n"⟩,
       { s1 with lastHttpActivityMs := env.now,
                 apShutdownAt := env.now + 40000,
                 runState := RunState.CONNECTED }, calls)
    else
      (⟨500, "Failed to connect, please check credentials and try again."⟩,
       { s1 with lastHttpActivityMs := env.now,
                 runState := RunState.AP_SETUP }, calls)

/-- One iteration of `loop()` (LED writes modelled separately, factory reset
modelled separately).  In AP_SETUP the tick serves at most one HTTP request —
a `/save` form runs `handleSave`, any other served request just refreshes
`lastHttpActivityMs`
— and then, still inside the same `if (runState == AP_SETUP)` block, checks
the idle deadline against the possibly-refreshed activity timestamp and on
expiry performs one `tryConnectWhileAp(currentSsid, currentPass, 1,
CONNECT_TIMEOUT_MS)` retry.  Afterwards the shutdown branch fires when
CONNECTED with a nonzero deadline that `millis()` has reached, stopping the
HTTP and DNS services and clearing the deadline. -/
def loopStep (env : Env) (s : Sys) : Sys × List Call :=
  let apPart :=
    if s.runState = RunState.AP_SETUP then
      let served : Sys × List Call :=
        match env.request with
        | none => (s, [])
        | some (ssid, pass) =>
          let r := handleSave env ssid pass s
          (r.2.1, r.2.2)
      let s1 := served.1
      if env.now - s1.lastHttpActivityMs > AP_IDLE_TIMEOUT_MS then
        let s2 := { s1 with lastHttpActivityMs := env.now }
        let retryCall :=
          Call.connectWhileAp s1.currentSsid s1.currentPass 1 CONNECT_TIMEOUT_MS
        if env.connectOk then
          ({ s2 with runState := RunState.CONNECTED,
                     apShutdownAt := env.now + 40000 },
           served.2 ++ [retryCall])
        else
          (s2, served.2 ++ [retryCall])
      else served
    else (s, [])
  let s1 := apPart.1
  let s2 :=
    if s1.runState = RunState.CONNECTED ∧ s1.apShutdownAt ≠ 0 ∧
        s1.apShutdownAt ≤ env.now then
      { s1 with serverRunning := false, dnsRunning := false, apShutdownAt := 0 }
    else s1
  (s2, apPart.2)

/-- Model of `setup()`: load credentials from NVS into the working copy, run
the initial `tryConnectStation(currentSsid, currentPass, MAX_RETRIES,
CONNECT_TIMEOUT_MS)` (outcome `connectOk`); on success CONNECTED, otherwise
`startCaptiveAP()` brings up the HTTP and DNS services, stamps
`lastHttpActivityMs`, and the state becomes AP_SETUP.  Returns the initial
state and the connect call made. -/
def bootState (st : Store) (connectOk : Bool) (now : Nat) : Sys × List Call :=
  let creds := loadCredentialsFromNVS st
  let call := Call.connectStation creds.1 creds.2 MAX_RETRIES CONNECT_TIMEOUT_MS
  if connectOk then
    ({ runState := RunState.CONNECTED, currentSsid := creds.1,
       currentPass := creds.2, store := st, serverRunning := false,
       dnsRunning := false, lastHttpActivityMs := 0, apShutdownAt := 0 }, [call])
  else
    ({ runState := RunState.AP_SETUP, currentSsid := creds.1,
       currentPass := creds.2, store := st, serverRunning := true,
       dnsRunning := true, lastHttpActivityMs := now, apShutdownAt := 0 }, [call])

/-- The reachable controller states: any boot state (a factory reset restarts
the device, landing it back in a boot state), closed under `loopStep`. -/
inductive Reachable : Sys → Prop
  | boot (st : Store) (connectOk : Bool) (now : Nat) :
      Reachable (bootState st connectOk now).1
  | step (env : Env) (s : Sys) : Reachable s → Reachable (loopStep env s).1

/-- Button-hold state of the factory-reset monitor: `factoryBtnHeld` and
`factoryBtnPressStartMs`. -/
structure FRState where
  held : Bool
  pressStart : Nat
deriving DecidableEq, Repr

/-- Model of `factoryResetCheck`, sampled once per tick at time `now` with
`buttonLow` the level read from the button pin (LOW = pressed).  Returns the
new hold state and whether the reset fires this tick.  A release resets only
the `held` flag; a fresh press records the press-start time; a continued
press fires when 10 s have elapsed. -/
def factoryResetCheck (now : Nat) (buttonLow : Bool) (fr : FRState) :
    FRState × Bool :=
  if buttonLow then
    if ¬ fr.held then ({ held := true, pressStart := now }, false)
    else if 10000 ≤ now - fr.pressStart then (fr, true)
    else (fr, false)
  else ({ fr with held := false }, false)

/-- Runs the factory-reset monitor over a trace of `(time, pressed)` samples,
one per control-loop tick.  When the threshold check fires, the trigger wipes
the store (`performFactoryReset`) and the device restarts, ending the trace.
Returns (final hold state, final store, whether a reset fired). -/
def runResetMonitor (fr : FRState) (st : Store) :
    List (Nat × Bool) → FRState × Store × Bool
  | [] => (fr, st, false)
  | (now, btn) :: rest =>
    let r := factoryResetCheck now btn fr
    if r.2 then (r.1, performFactoryReset st, true)
    else runResetMonitor r.1 st rest

/-- The `SetupPhase` enum of the source. -/
inductive SetupPhase where
  | IDLE
  | BLINK1_ON
  | BLINK1_OFF
  | BLINK2_ON
  | BLINK2_OFF
  | PAUSE
deriving DecidableEq, Repr

/-- LED scheduler state for the AP_SETUP double-blink pattern: the phase, the
phase-start timestamp, and the output levels of the two indicator pins. -/
structure LedState where
  phase : SetupPhase
  phaseStart : Nat
  led1 : Bool
  led2 : Bool
deriving DecidableEq, Repr

/-- Dwell time of each phase before `showSetupPattern` advances (`onMs`,
`offMs`, `pauseMs` in the source; IDLE advances immediately). -/
def phaseDuration : SetupPhase → Nat
  | SetupPhase.IDLE => 0
  | SetupPhase.BLINK1_ON => 200
  | SetupPhase.BLINK1_OFF => 200
  | SetupPhase.BLINK2_ON => 200
  | SetupPhase.BLINK2_OFF => 200
  | SetupPhase.PAUSE => 1200

/-- Successor of each phase in the fixed cycle (the `default` branch sends
IDLE to PAUSE). -/
def nextPhase : SetupPhase → SetupPhase
  | SetupPhase.IDLE => SetupPhase.PAUSE
  | SetupPhase.BLINK1_ON => SetupPhase.BLINK1_OFF
  | SetupPhase.BLINK1_OFF => SetupPhase.BLINK2_ON
  | SetupPhase.BLINK2_ON => SetupPhase.BLINK2_OFF
  | SetupPhase.BLINK2_OFF => SetupPhase.PAUSE
  | SetupPhase.PAUSE => SetupPhase.BLINK1_ON

/-- Model of `showSetupPattern` called at time `now`: in BLINK1_ON the pins
are rewritten (A high, B low) on every call; each phase advances to its
successor once its dwell time has elapsed, stamping the new phase start and
writing the pins the source writes at that transition. -/
def showSetupPattern (now : Nat) (s : LedState) : LedState :=
  match s.phase with
  | SetupPhase.BLINK1_ON =>
    let s1 := { s with led1 := true, led2 := false }
    if 200 ≤ now - s1.phaseStart then
      { s1 with phase := SetupPhase.BLINK1_OFF, phaseStart := now, led1 := false }
    else s1
  | SetupPhase.BLINK1_OFF =>
    if 200 ≤ now - s.phaseStart then
      { s with phase := SetupPhase.BLINK2_ON, phaseStart := now,
               led1 := true, led2 := true }
    else s
  | SetupPhase.BLINK2_ON =>
    if 200 ≤ now - s.phaseStart then
      { s with phase := SetupPhase.BLINK2_OFF, phaseStart := now,
               led1 := false, led2 := false }
    else s
  | SetupPhase.BLINK2_OFF =>
    if 200 ≤ now - s.phaseStart then
      { s with phase := SetupPhase.PAUSE, phaseStart := now }
    else s
  | SetupPhase.PAUSE =>
    if 1200 ≤ now - s.phaseStart then
      { s with phase := SetupPhase.BLINK1_ON, phaseStart := now }
    else s
  | SetupPhase.IDLE =>
    { s with phase := SetupPhase.PAUSE, phaseStart := now }

/-- Model of the LED effect of `startCaptiveAP` (entry into AP_SETUP): the
phase is reset to BLINK1_ON and the phase-start timestamp to now; the pins
are not written by the entry itself. -/
def startCaptiveAPLed (now : Nat) (s : LedState) : LedState :=
  { s with phase := SetupPhase.BLINK1_ON, phaseStart := now }

/-- LED states reachable while AP_SETUP is active: entry through
`startCaptiveAP` — indicator B is low at entry, since every write to it
outside this pattern (boot, `showConnectingPattern`, `showConnected`) drives
it low, while indicator A may hold either level — closed under
`showSetupPattern` ticks. -/
inductive LedReachable : LedState → Prop
  | entry (now : Nat) (b1 : Bool) :
      LedReachable ⟨SetupPhase.BLINK1_ON, now, b1, false⟩
  | step (now : Nat) (s : LedState) :
      LedReachable s → LedReachable (showSetupPattern now s)

/-! ### Helper lemmas -/

/-- If the status oracle never reports connected, the polling loop runs all
its polls and exits 100 ms per poll after it started. -/
theorem pollLoop_never (status : Nat → Bool) (h : ∀ x, status x = false) :
    ∀ (n t : Nat), pollLoop status t n = (false, t + 100 * n) := by
  intro n
  induction n with
  | zero => intro t; simp [pollLoop]
  | succ k ih =>
    intro t
    rw [pollLoop, h t]
    simp only [Bool.false_eq_true, if_false, ih (t + 100)]
    congr 1
    omega

/-- Time consumed by `n` all-failing attempts (with 10 s timeout) starting at
attempt index `attempt`: 50 ms reset delay plus 10 s polling plus the backoff
for that index, per attempt. -/
def failTime (attempt : Nat) : Nat → Nat
  | 0 => 0
  | n + 1 => 10050 + backoffMs attempt + failTime (attempt + 1) n

/-- Event trace of `n` all-failing attempts starting at index `attempt`. -/
def failTrace (attempt : Nat) : Nat → List ConnEvent
  | 0 => []
  | n + 1 =>
    ConnEvent.attempt attempt :: ConnEvent.backoff (backoffMs attempt) ::
      failTrace (attempt + 1) n

/-- Closed form of the attempt loop when the status oracle never reports
connected. -/
theorem stationLoop_never (status : Nat → Bool) (h : ∀ x, status x = false) :
    ∀ (n attempt t : Nat),
      stationLoop status 10000 attempt t n =
        (false, t + failTime attempt n, failTrace attempt n) := by
  intro n
  induction n with
  | zero => intro attempt t; simp [stationLoop, failTime, failTrace]
  | succ k ih =>
    intro attempt t
    simp only [stationLoop, pollLoop_never status h, ih, failTime, failTrace,
      pollTimes]
    norm_num
    omega

/-- Closed form of `tryConnectStation` with the full retry budget when the
status oracle never reports connected: each attempt costs 50 ms of reset
delay plus the full 10 s of polling, and a backoff follows every failed
attempt, the final one included. -/
theorem tryConnectStation_never_eq (status : Nat → Bool) (ssid pass : String)
    (t : Nat) (h : ∀ x, status x = false) :
    tryConnectStation status ssid pass 5 10000 t =
      (false, t + 73250,
       [ConnEvent.attempt 0, ConnEvent.backoff 1000,
        ConnEvent.attempt 1, ConnEvent.backoff 2000,
        ConnEvent.attempt 2, ConnEvent.backoff 4000,
        ConnEvent.attempt 3, ConnEvent.backoff 8000,
        ConnEvent.attempt 4, ConnEvent.backoff 8000]) := by
  have h1 : failTime 0 5 = 73250 := by decide
  have h2 : failTrace 0 5 =
      [ConnEvent.attempt 0, ConnEvent.backoff 1000,
       ConnEvent.attempt 1, ConnEvent.backoff 2000,
       ConnEvent.attempt 2, ConnEvent.backoff 4000,
       ConnEvent.attempt 3, ConnEvent.backoff 8000,
       ConnEvent.attempt 4, ConnEvent.backoff 8000] := by decide
  rw [tryConnectStation, stationLoop_never status h, h1, h2]

/-! ### Claim theorems -/

/-- C1 counterexample: run `connectExclusive` (`tryConnectStation`) with
`maxAttempts = 5` from time 0 against a status oracle that never reports
connected.  The claim's conjuncts "at most 4 intervening backoff waits",
"never after the final attempt" and "total blocking time ≤ 5×10 s + 15 s"
are all false: the trace carries 5 backoff waits, ends in a backoff after
the 5th attempt, and the call blocks 73250 ms > 65000 ms. -/
theorem tryConnectStation_claimed_bound_false :
    ¬ (((backoffDurations
          (tryConnectStation (fun _ => false) "HomeNet" "secret_pw" 5 10000 0).2.2).length ≤ 4) ∧
       (tryConnectStation (fun _ => false) "HomeNet" "secret_pw" 5 10000 0).2.2.getLast? ≠
         some (ConnEvent.backoff 8000) ∧
       (tryConnectStation (fun _ => false) "HomeNet" "secret_pw" 5 10000 0).2.1 ≤ 65000) := by
  decide

/-- C1 (amended): for every call of `connectExclusive` (`tryConnectStation`)
with `maxAttempts = 5` that never observes a connected status, it performs
exactly 5 connection attempts and exactly 5 backoff waits of durations
1 s, 2 s, 4 s, 8 s, 8 s (capped at 8 s), one after every failed attempt
including the final one, so its total modeled blocking time is exactly
5 × (10 s + 50 ms) + (1+2+4+8+8) s = 73.25 s. -/
theorem tryConnectStation_exhaustion_profile (status : Nat → Bool)
    (ssid pass : String) (t : Nat) (h : ∀ x, status x = false) :
    attemptCount (tryConnectStation status ssid pass 5 10000 t).2.2 = 5 ∧
    backoffDurations (tryConnectStation status ssid pass 5 10000 t).2.2 =
      [1000, 2000, 4000, 8000, 8000] ∧
    tryConnectStation status ssid pass 5 10000 t =
      (false, t + 73250,
       [ConnEvent.attempt 0, ConnEvent.backoff 1000,
        ConnEvent.attempt 1, ConnEvent.backoff 2000,
        ConnEvent.attempt 2, ConnEvent.backoff 4000,
        ConnEvent.attempt 3, ConnEvent.backoff 8000,
        ConnEvent.attempt 4, ConnEvent.backoff 8000]) ∧
    (tryConnectStation status ssid pass 5 10000 t).2.1 - t =
      5 * (CONNECT_TIMEOUT_MS + 50) + (1000 + 2000 + 4000 + 8000 + 8000) := by
  have e := tryConnectStation_never_eq status ssid pass t h
  rw [e]
  refine ⟨rfl, rfl, rfl, ?_⟩
  simp [CONNECT_TIMEOUT_MS]

/-- C1 witness: the amended profile instantiated at the all-fail oracle and
start time 0. -/
theorem tryConnectStation_exhaustion_profile_witness :
    attemptCount (tryConnectStation (fun _ => false) "HomeNet" "secret_pw" 5 10000 0).2.2 = 5 ∧
    backoffDurations (tryConnectStation (fun _ => false) "HomeNet" "secret_pw" 5 10000 0).2.2 =
      [1000, 2000, 4000, 8000, 8000] ∧
    tryConnectStation (fun _ => false) "HomeNet" "secret_pw" 5 10000 0 =
      (false, 0 + 73250,
       [ConnEvent.attempt 0, ConnEvent.backoff 1000,
        ConnEvent.attempt 1, ConnEvent.backoff 2000,
        ConnEvent.attempt 2, ConnEvent.backoff 4000,
        ConnEvent.attempt 3, ConnEvent.backoff 8000,
        ConnEvent.attempt 4, ConnEvent.backoff 8000]) ∧
    (tryConnectStation (fun _ => false) "HomeNet" "secret_pw" 5 10000 0).2.1 - 0 =
      5 * (CONNECT_TIMEOUT_MS + 50) + (1000 + 2000 + 4000 + 8000 + 8000) :=
  tryConnectStation_exhaustion_profile (fun _ => false) "HomeNet" "secret_pw" 0
    (fun _ => rfl)

/-- C2: `tryConnectWhileAp` does not implement the claimed retry/backoff
logic of `tryConnectStation` — its `maxRetries` parameter is never read, so
it always performs exactly one attempt and no backoff.  Against a radio that
comes up between the first and second attempt, `tryConnectStation` with
`maxAttempts = 5` succeeds on its second attempt while `tryConnectWhileAp`
with the same arguments fails after a single attempt. -/
theorem tryConnectWhileAp_single_attempt_divergence :
    (tryConnectWhileAp (fun tm => decide (10100 ≤ tm)) "HomeNet" "secret_pw" 5 10000 0).1
      = false ∧
    attemptCount
      (tryConnectWhileAp (fun tm => decide (10100 ≤ tm)) "HomeNet" "secret_pw" 5 10000 0).2.2
      = 1 ∧
    (tryConnectStation (fun tm => decide (10100 ≤ tm)) "HomeNet" "secret_pw" 5 10000 0).1
      = true ∧
    (∀ (status : Nat → Bool) (ssid pass : String) (m1 m2 timeoutMs t : Nat),
       tryConnectWhileAp status ssid pass m1 timeoutMs t =
         tryConnectWhileAp status ssid pass m2 timeoutMs t) :=
  ⟨by decide, by decide, by decide, fun _ _ _ _ _ _ _ => rfl⟩

/-- C3: a POST /save whose ssid is empty or whose password is shorter than 8
characters is answered 400 and leaves the persisted store, the working copy
and the connection manager untouched; a request with non-empty ssid and
password of length at least 8 persists the credentials and attempts a
connection with the full retry budget. -/
theorem handleSave_validation (env : Env) (ssid pass : String) (s : Sys) :
    (ssid.length = 0 ∨ pass.length < 8 →
      (handleSave env ssid pass s).1.code = 400 ∧
      (handleSave env ssid pass s).2.1.store = s.store ∧
      (handleSave env ssid pass s).2.1.currentSsid = s.currentSsid ∧
      (handleSave env ssid pass s).2.1.currentPass = s.currentPass ∧
      (handleSave env ssid pass s).2.2 = []) ∧
    (¬ (ssid.length = 0 ∨ pass.length < 8) →
      (handleSave env ssid pass s).2.1.store =
        { ssid := ssid, pass := pass, prov := 1 } ∧
      (handleSave env ssid pass s).2.2 =
        [Call.connectWhileAp ssid pass MAX_RETRIES CONNECT_TIMEOUT_MS]) := by
  constructor
  · intro h
    simp [handleSave, h]
  · intro h
    cases hc : env.connectOk <;>
      simp [handleSave, h, hc, saveCredentialsToNVS]

/-- C3 witness: a 7-character password is rejected with 400 and nothing is
touched; an 8-character password with a non-empty ssid is persisted and a
full-budget connection attempt is made. -/
theorem handleSave_validation_witness :
    ((handleSave ⟨7, none, true, "10.0.0.9"⟩ "Net" "short77"
        ⟨RunState.AP_SETUP, "o", "oldpass0", ⟨"os", "op", 1⟩, true, true, 0, 0⟩).1.code = 400 ∧
     (handleSave ⟨7, none, true, "10.0.0.9"⟩ "Net" "short77"
        ⟨RunState.AP_SETUP, "o", "oldpass0", ⟨"os", "op", 1⟩, true, true, 0, 0⟩).2.1.store
        = ⟨"os", "op", 1⟩) ∧
    ((handleSave ⟨7, none, true, "10.0.0.9"⟩ "Net" "password"
        ⟨RunState.AP_SETUP, "o", "oldpass0", ⟨"os", "op", 1⟩, true, true, 0, 0⟩).2.1.store
        = { ssid := "Net", pass := "password", prov := 1 } ∧
     (handleSave ⟨7, none, true, "10.0.0.9"⟩ "Net" "password"
        ⟨RunState.AP_SETUP, "o", "oldpass0", ⟨"os", "op", 1⟩, true, true, 0, 0⟩).2.2
        = [Call.connectWhileAp "Net" "password" MAX_RETRIES CONNECT_TIMEOUT_MS]) := by
  refine ⟨⟨?_, ?_⟩, ?_, ?_⟩
  · exact ((handleSave_validation ⟨7, none, true, "10.0.0.9"⟩ "Net" "short77"
      ⟨RunState.AP_SETUP, "o", "oldpass0", ⟨"os", "op", 1⟩, true, true, 0, 0⟩).1
      (Or.inr (by decide))).1
  · exact ((handleSave_validation ⟨7, none, true, "10.0.0.9"⟩ "Net" "short77"
      ⟨RunState.AP_SETUP, "o", "oldpass0", ⟨"os", "op", 1⟩, true, true, 0, 0⟩).1
      (Or.inr (by decide))).2.1
  · exact ((handleSave_validation ⟨7, none, true, "10.0.0.9"⟩ "Net" "password"
      ⟨RunState.AP_SETUP, "o", "oldpass0", ⟨"os", "op", 1⟩, true, true, 0, 0⟩).2
      (by decide)).1
  · exact ((handleSave_validation ⟨7, none, true, "10.0.0.9"⟩ "Net" "password"
      ⟨RunState.AP_SETUP, "o", "oldpass0", ⟨"os", "op", 1⟩, true, true, 0, 0⟩).2
      (by decide)).2

/-- C4: a valid save whose connection attempt succeeds is answered 200 with
body "Connected to ssid IP: ip" (plus a trailing newline), moves the state to
CONNECTED and schedules AP shutdown 40 s in the future; a failing attempt is
answered 500 and stays in AP_SETUP.  The loop services a pending deadline
only while CONNECTED: before the deadline the HTTP and DNS services and the
deadline are untouched, and once the deadline is reached they are stopped and
the deadline cleared. -/
theorem handleSave_success_schedules_shutdown (env : Env) (ssid pass : String)
    (s : Sys) (hv : ¬ (ssid.length = 0 ∨ pass.length < 8)) :
    (env.connectOk = true →
      (handleSave env ssid pass s).1 =
        ⟨200, "Connected to " ++ ssid ++ " IP: " ++ env.localIp ++ "\n"⟩ ∧
      (handleSave env ssid pass s).2.1.runState = RunState.CONNECTED ∧
      (handleSave env ssid pass s).2.1.apShutdownAt = env.now + 40000) ∧
    (env.connectOk = false →
      (handleSave env ssid pass s).1.code = 500 ∧
      (handleSave env ssid pass s).2.1.runState = RunState.AP_SETUP ∧
      (handleSave env ssid pass s).2.1.apShutdownAt = s.apShutdownAt) ∧
    (∀ (e2 : Env) (s2 : Sys), s2.runState = RunState.CONNECTED →
      s2.apShutdownAt ≠ 0 →
      (e2.now < s2.apShutdownAt →
        (loopStep e2 s2).1.serverRunning = s2.serverRunning ∧
        (loopStep e2 s2).1.dnsRunning = s2.dnsRunning ∧
        (loopStep e2 s2).1.apShutdownAt = s2.apShutdownAt) ∧
      (s2.apShutdownAt ≤ e2.now →
        (loopStep e2 s2).1.serverRunning = false ∧
        (loopStep e2 s2).1.dnsRunning = false ∧
        (loopStep e2 s2).1.apShutdownAt = 0)) := by
  refine ⟨?_, ?_, ?_⟩
  · intro hc
    simp [handleSave, hv, hc]
  · intro hc
    simp [handleSave, hv, hc]
  · intro e2 s2 hrs hne
    constructor
    · intro hlt
      have hcond : ¬ (s2.apShutdownAt ≤ e2.now) := by omega
      simp [loopStep, hrs, hne, hcond]
    · intro hge
      simp [loopStep, hrs, hne, hge]

/-- C4 witness: the three parts at concrete inputs — a successful save at
time 7, the loop one tick before the deadline, and the loop at the deadline. -/
theorem handleSave_success_schedules_shutdown_witness :
    ((handleSave ⟨7, none, true, "10.0.0.9"⟩ "Net" "password"
        ⟨RunState.AP_SETUP, "o", "oldpass0", ⟨"os", "op", 1⟩, true, true, 0, 0⟩).1 =
      ⟨200, "Connected to " ++ "Net" ++ " IP: " ++ "10.0.0.9" ++ "\n"⟩ ∧
     (handleSave ⟨7, none, true, "10.0.0.9"⟩ "Net" "password"
        ⟨RunState.AP_SETUP, "o", "oldpass0", ⟨"os", "op", 1⟩, true, true, 0, 0⟩).2.1.runState
        = RunState.CONNECTED ∧
     (handleSave ⟨7, none, true, "10.0.0.9"⟩ "Net" "password"
        ⟨RunState.AP_SETUP, "o", "oldpass0", ⟨"os", "op", 1⟩, true, true, 0, 0⟩).2.1.apShutdownAt
        = 7 + 40000) ∧
    ((loopStep ⟨40006, none, false, ""⟩
        ⟨RunState.CONNECTED, "Net", "password", ⟨"Net", "password", 1⟩, true, true, 7, 40007⟩).1.serverRunning
        = true ∧
     (loopStep ⟨40007, none, false, ""⟩
        ⟨RunState.CONNECTED, "Net", "password", ⟨"Net", "password", 1⟩, true, true, 7, 40007⟩).1.serverRunning
        = false ∧
     (loopStep ⟨40007, none, false, ""⟩
        ⟨RunState.CONNECTED, "Net", "password", ⟨"Net", "password", 1⟩, true, true, 7, 40007⟩).1.dnsRunning
        = false ∧
     (loopStep ⟨40007, none, false, ""⟩
        ⟨RunState.CONNECTED, "Net", "password", ⟨"Net", "password", 1⟩, true, true, 7, 40007⟩).1.apShutdownAt
        = 0) := by
  refine ⟨?_, ?_, ?_, ?_⟩
  · exact (handleSave_success_schedules_shutdown ⟨7, none, true, "10.0.0.9"⟩
      "Net" "password" ⟨RunState.AP_SETUP, "o", "oldpass0", ⟨"os", "op", 1⟩, true, true, 0, 0⟩
      (by decide)).1 rfl
  · exact (((handleSave_success_schedules_shutdown ⟨7, none, true, "10.0.0.9"⟩
      "Net" "password" ⟨RunState.AP_SETUP, "o", "oldpass0", ⟨"os", "op", 1⟩, true, true, 0, 0⟩
      (by decide)).2.2 ⟨40006, none, false, ""⟩
      ⟨RunState.CONNECTED, "Net", "password", ⟨"Net", "password", 1⟩, true, true, 7, 40007⟩
      rfl (by decide)).1 (by decide)).1
  · exact (((handleSave_success_schedules_shutdown ⟨7, none, true, "10.0.0.9"⟩
      "Net" "password" ⟨RunState.AP_SETUP, "o", "oldpass0", ⟨"os", "op", 1⟩, true, true, 0, 0⟩
      (by decide)).2.2 ⟨40007, none, false, ""⟩
      ⟨RunState.CONNECTED, "Net", "password", ⟨"Net", "password", 1⟩, true, true, 7, 40007⟩
      rfl (by decide)).2 (by decide)).1
  · exact (((handleSave_success_schedules_shutdown ⟨7, none, true, "10.0.0.9"⟩
      "Net" "password" ⟨RunState.AP_SETUP, "o", "oldpass0", ⟨"os", "op", 1⟩, true, true, 0, 0⟩
      (by decide)).2.2 ⟨40007, none, false, ""⟩
      ⟨RunState.CONNECTED, "Net", "password", ⟨"Net", "password", 1⟩, true, true, 7, 40007⟩
      rfl (by decide)).2 (by decide)).2

/-- C5: when the provisioned flag is 0, startup loads the built-in dummy pair
into the working copy and makes the initial `tryConnectStation` call with it;
when the flag is nonzero, the stored ssid and password are loaded and used
instead. -/
theorem bootState_placeholder_credentials (st : Store) (ok : Bool) (now : Nat) :
    (st.prov = 0 →
      (bootState st ok now).1.currentSsid = DUMMY_SSID ∧
      (bootState st ok now).1.currentPass = DUMMY_PASS ∧
      (bootState st ok now).2 =
        [Call.connectStation DUMMY_SSID DUMMY_PASS MAX_RETRIES CONNECT_TIMEOUT_MS]) ∧
    (st.prov ≠ 0 →
      (bootState st ok now).1.currentSsid = st.ssid ∧
      (bootState st ok now).1.currentPass = st.pass ∧
      (bootState st ok now).2 =
        [Call.connectStation st.ssid st.pass MAX_RETRIES CONNECT_TIMEOUT_MS]) := by
  constructor
  · intro h
    cases ok <;> simp [bootState, loadCredentialsFromNVS, h]
  · intro h
    cases ok <;> simp [bootState, loadCredentialsFromNVS, h]

/-- C5 witness: an unprovisioned store with stale stored strings boots with
the dummy pair; the same store with the flag set boots with the stored pair. -/
theorem bootState_placeholder_credentials_witness :
    ((bootState ⟨"StaleNet", "stale-pass", 0⟩ false 3).1.currentSsid = DUMMY_SSID ∧
     (bootState ⟨"StaleNet", "stale-pass", 0⟩ false 3).1.currentPass = DUMMY_PASS ∧
     (bootState ⟨"StaleNet", "stale-pass", 0⟩ false 3).2 =
       [Call.connectStation DUMMY_SSID DUMMY_PASS MAX_RETRIES CONNECT_TIMEOUT_MS]) ∧
    ((bootState ⟨"StaleNet", "stale-pass", 1⟩ false 3).2 =
       [Call.connectStation "StaleNet" "stale-pass" MAX_RETRIES CONNECT_TIMEOUT_MS]) :=
  ⟨(bootState_placeholder_credentials ⟨"StaleNet", "stale-pass", 0⟩ false 3).1 rfl,
   ((bootState_placeholder_credentials ⟨"StaleNet", "stale-pass", 1⟩ false 3).2
     (by decide)).2.2⟩

/-- C10: a valid save writes the new credentials to the store with
provisioned = 1 and into the working copy before the connection attempt, so
even when the attempt fails (500), both copies hold the new credentials and
the next startup load returns them. -/
theorem handleSave_persists_before_connect (env : Env) (ssid pass : String)
    (s : Sys) (hv : ¬ (ssid.length = 0 ∨ pass.length < 8))
    (hc : env.connectOk = false) :
    (handleSave env ssid pass s).1.code = 500 ∧
    (handleSave env ssid pass s).2.1.store =
      { ssid := ssid, pass := pass, prov := 1 } ∧
    (handleSave env ssid pass s).2.1.currentSsid = ssid ∧
    (handleSave env ssid pass s).2.1.currentPass = pass ∧
    loadCredentialsFromNVS (handleSave env ssid pass s).2.1.store = (ssid, pass) := by
  simp [handleSave, hv, hc, saveCredentialsToNVS, loadCredentialsFromNVS]

/-- C10 witness: a failing save of fresh credentials leaves them persisted
and loadable. -/
theorem handleSave_persists_before_connect_witness :
    (handleSave ⟨9, none, false, ""⟩ "NewNet" "newpass99"
       ⟨RunState.AP_SETUP, "o", "oldpass0", ⟨"os", "op", 1⟩, true, true, 0, 0⟩).1.code = 500 ∧
    (handleSave ⟨9, none, false, ""⟩ "NewNet" "newpass99"
       ⟨RunState.AP_SETUP, "o", "oldpass0", ⟨"os", "op", 1⟩, true, true, 0, 0⟩).2.1.store =
      { ssid := "NewNet", pass := "newpass99", prov := 1 } ∧
    (handleSave ⟨9, none, false, ""⟩ "NewNet" "newpass99"
       ⟨RunState.AP_SETUP, "o", "oldpass0", ⟨"os", "op", 1⟩, true, true, 0, 0⟩).2.1.currentSsid
      = "NewNet" ∧
    (handleSave ⟨9, none, false, ""⟩ "NewNet" "newpass99"
       ⟨RunState.AP_SETUP, "o", "oldpass0", ⟨"os", "op", 1⟩, true, true, 0, 0⟩).2.1.currentPass
      = "newpass99" ∧
    loadCredentialsFromNVS (handleSave ⟨9, none, false, ""⟩ "NewNet" "newpass99"
       ⟨RunState.AP_SETUP, "o", "oldpass0", ⟨"os", "op", 1⟩, true, true, 0, 0⟩).2.1.store
      = ("NewNet", "newpass99") :=
  handleSave_persists_before_connect ⟨9, none, false, ""⟩ "NewNet" "newpass99"
    ⟨RunState.AP_SETUP, "o", "oldpass0", ⟨"os", "op", 1⟩, true, true, 0, 0⟩
    (by decide) rfl

/-- Once the button is registered as held with press start `ps`, a trace of
pressed samples containing one taken at least 10 s after `ps` fires the
reset and wipes the store. -/
theorem runResetMonitor_fires (ps : Nat) (st : Store) :
    ∀ (trace : List (Nat × Bool)), (∀ p ∈ trace, p.2 = true) →
      (∃ p ∈ trace, 10000 ≤ p.1 - ps) →
      (runResetMonitor ⟨true, ps⟩ st trace).2.2 = true ∧
      (runResetMonitor ⟨true, ps⟩ st trace).2.1 = ⟨"", "", 0⟩ := by
  intro trace
  induction trace with
  | nil => intro _ hex; simp at hex
  | cons hd tl ih =>
    intro hall hex
    have hbtn : hd.2 = true := hall hd (List.mem_cons_self hd tl)
    by_cases hth : 10000 ≤ hd.1 - ps
    · simp [runResetMonitor, factoryResetCheck, hbtn, hth, performFactoryReset]
    · have hex' : ∃ p ∈ tl, 10000 ≤ p.1 - ps := by
        rcases hex with ⟨p, hp, hple⟩
        rcases List.mem_cons.mp hp with h | h
        · exact absurd (h ▸ hple) hth
        · exact ⟨p, h, hple⟩
      have hall' : ∀ p ∈ tl, p.2 = true := fun p hp => hall p (List.mem_cons_of_mem hd hp)
      have := ih hall' hex'
      simpa [runResetMonitor, factoryResetCheck, hbtn, hth] using this

/-- Once the button is registered as held with press start `ps`, pressed
samples all under the 10 s threshold followed by a release leave the store
untouched, fire nothing, and return the hold state to not-held. -/
theorem runResetMonitor_released (ps : Nat) (st : Store) :
    ∀ (mid : List (Nat × Bool)) (tr : Nat),
      (∀ p ∈ mid, p.2 = true ∧ p.1 - ps < 10000) →
      runResetMonitor ⟨true, ps⟩ st (mid ++ [(tr, false)]) =
        (⟨false, ps⟩, st, false) := by
  intro mid
  induction mid with
  | nil =>
    intro tr _
    simp [runResetMonitor, factoryResetCheck]
  | cons hd tl ih =>
    intro tr hall
    have hhd := hall hd (List.mem_cons_self hd tl)
    have hth : ¬ 10000 ≤ hd.1 - ps := by omega
    have hall' : ∀ p ∈ tl, p.2 = true ∧ p.1 - ps < 10000 :=
      fun p hp => hall p (List.mem_cons_of_mem hd hp)
    simpa [runResetMonitor, factoryResetCheck, hhd.1, hth] using ih tr hall'

/-- C6: starting from the not-held state, a trace whose first sample presses
the button and whose later samples keep it pressed, one of them at least 10 s
after the first, triggers the factory reset: the store is wiped to empty
strings with provisioned = 0, so the post-restart load returns the
placeholder pair.  A trace that keeps every pressed sample under 10 s and
then releases triggers nothing, leaves the store untouched, and returns the
hold state to not-held. -/
theorem factoryReset_long_press (t0 : Nat) (st : Store) :
    (∀ (rest : List (Nat × Bool)), (∀ p ∈ rest, p.2 = true) →
      (∃ p ∈ rest, 10000 ≤ p.1 - t0) →
      (runResetMonitor ⟨false, 0⟩ st ((t0, true) :: rest)).2.2 = true ∧
      (runResetMonitor ⟨false, 0⟩ st ((t0, true) :: rest)).2.1 = ⟨"", "", 0⟩ ∧
      loadCredentialsFromNVS (runResetMonitor ⟨false, 0⟩ st ((t0, true) :: rest)).2.1
        = (DUMMY_SSID, DUMMY_PASS)) ∧
    (∀ (mid : List (Nat × Bool)) (tr : Nat),
      (∀ p ∈ mid, p.2 = true ∧ p.1 - t0 < 10000) → tr - t0 < 10000 →
      runResetMonitor ⟨false, 0⟩ st ((t0, true) :: (mid ++ [(tr, false)])) =
        (⟨false, t0⟩, st, false)) := by
  have hfirst : ∀ (tail : List (Nat × Bool)),
      runResetMonitor ⟨false, 0⟩ st ((t0, true) :: tail) =
        runResetMonitor ⟨true, t0⟩ st tail := by
    intro tail
    simp [runResetMonitor, factoryResetCheck]
  constructor
  · intro rest hall hex
    rw [hfirst]
    have h := runResetMonitor_fires t0 st rest hall hex
    exact ⟨h.1, h.2, by rw [h.2]; simp [loadCredentialsFromNVS]⟩
  · intro mid tr hall _
    rw [hfirst]
    exact runResetMonitor_released t0 st mid tr hall

/-- C6 witness: pressing at 500 ms and still holding at 10500 ms wipes the
store; pressing at 500 ms, sampling at 10400 ms (9.9 s elapsed) and releasing
at 10450 ms wipes nothing and ends not-held. -/
theorem factoryReset_long_press_witness :
    ((runResetMonitor ⟨false, 0⟩ ⟨"HomeNet", "secret_pw", 1⟩
        [(500, true), (5000, true), (10500, true)]).2.2 = true ∧
     (runResetMonitor ⟨false, 0⟩ ⟨"HomeNet", "secret_pw", 1⟩
        [(500, true), (5000, true), (10500, true)]).2.1 = ⟨"", "", 0⟩ ∧
     loadCredentialsFromNVS (runResetMonitor ⟨false, 0⟩ ⟨"HomeNet", "secret_pw", 1⟩
        [(500, true), (5000, true), (10500, true)]).2.1 = (DUMMY_SSID, DUMMY_PASS)) ∧
    runResetMonitor ⟨false, 0⟩ ⟨"HomeNet", "secret_pw", 1⟩
        ((500, true) :: ([(10400, true)] ++ [(10450, false)])) =
      (⟨false, 500⟩, ⟨"HomeNet", "secret_pw", 1⟩, false) :=
  ⟨(factoryReset_long_press 500 ⟨"HomeNet", "secret_pw", 1⟩).1
      [(5000, true), (10500, true)]
      (by decide)
      ⟨(10500, true), by decide, by decide⟩,
   (factoryReset_long_press 500 ⟨"HomeNet", "secret_pw", 1⟩).2
      [(10400, true)] 10450
      (by decide)
      (by decide)⟩

/-- C7: a loop tick in AP_SETUP with no request served and the idle deadline
elapsed performs exactly one `connectCoexisting` retry with maxAttempts = 1;
when the retry fails the state stays AP_SETUP, the HTTP and DNS services, the
store, the working copy and the (unset) shutdown deadline are untouched, and
the idle deadline is reset to the tick's current time. -/
theorem idleRetry_failure_frame (env : Env) (s : Sys)
    (hrs : s.runState = RunState.AP_SETUP)
    (hreq : env.request = none)
    (hidle : AP_IDLE_TIMEOUT_MS < env.now - s.lastHttpActivityMs)
    (hc : env.connectOk = false)
    (hsd : s.apShutdownAt = 0) :
    (loopStep env s).2 =
      [Call.connectWhileAp s.currentSsid s.currentPass 1 CONNECT_TIMEOUT_MS] ∧
    (loopStep env s).1.runState = RunState.AP_SETUP ∧
    (loopStep env s).1.serverRunning = s.serverRunning ∧
    (loopStep env s).1.dnsRunning = s.dnsRunning ∧
    (loopStep env s).1.apShutdownAt = 0 ∧
    (loopStep env s).1.lastHttpActivityMs = env.now ∧
    (loopStep env s).1.currentSsid = s.currentSsid ∧
    (loopStep env s).1.currentPass = s.currentPass ∧
    (loopStep env s).1.store = s.store := by
  simp [loopStep, hrs, hreq, hidle, hc, hsd]

/-- C7 witness: an AP_SETUP state whose idle deadline elapsed 10601001 ms
after the last activity, with a failing retry. -/
theorem idleRetry_failure_frame_witness :
    (loopStep ⟨10601008, none, false, ""⟩
       ⟨RunState.AP_SETUP, "HomeNet", "secret_pw", ⟨"HomeNet", "secret_pw", 1⟩,
        true, true, 7, 0⟩).2 =
      [Call.connectWhileAp "HomeNet" "secret_pw" 1 CONNECT_TIMEOUT_MS] ∧
    (loopStep ⟨10601008, none, false, ""⟩
       ⟨RunState.AP_SETUP, "HomeNet", "secret_pw", ⟨"HomeNet", "secret_pw", 1⟩,
        true, true, 7, 0⟩).1.runState = RunState.AP_SETUP ∧
    (loopStep ⟨10601008, none, false, ""⟩
       ⟨RunState.AP_SETUP, "HomeNet", "secret_pw", ⟨"HomeNet", "secret_pw", 1⟩,
        true, true, 7, 0⟩).1.serverRunning = true ∧
    (loopStep ⟨10601008, none, false, ""⟩
       ⟨RunState.AP_SETUP, "HomeNet", "secret_pw", ⟨"HomeNet", "secret_pw", 1⟩,
        true, true, 7, 0⟩).1.dnsRunning = true ∧
    (loopStep ⟨10601008, none, false, ""⟩
       ⟨RunState.AP_SETUP, "HomeNet", "secret_pw", ⟨"HomeNet", "secret_pw", 1⟩,
        true, true, 7, 0⟩).1.apShutdownAt = 0 ∧
    (loopStep ⟨10601008, none, false, ""⟩
       ⟨RunState.AP_SETUP, "HomeNet", "secret_pw", ⟨"HomeNet", "secret_pw", 1⟩,
        true, true, 7, 0⟩).1.lastHttpActivityMs = 10601008 := by
  have h := idleRetry_failure_frame ⟨10601008, none, false, ""⟩
    ⟨RunState.AP_SETUP, "HomeNet", "secret_pw", ⟨"HomeNet", "secret_pw", 1⟩,
     true, true, 7, 0⟩ rfl rfl (by decide) rfl rfl
  exact ⟨h.1, h.2.1, h.2.2.1, h.2.2.2.1, h.2.2.2.2.1, h.2.2.2.2.2.1⟩

/-- One `showSetupPattern` tick preserves "indicator B is high only in
BLINK2_ON". -/
theorem showSetupPattern_led2_inv (now : Nat) (s : LedState)
    (hs : s.led2 = true → s.phase = SetupPhase.BLINK2_ON) :
    (showSetupPattern now s).led2 = true →
      (showSetupPattern now s).phase = SetupPhase.BLINK2_ON := by
  cases s with
  | mk phase phaseStart led1 led2 =>
    cases phase <;>
      simp only [showSetupPattern] <;>
      (try split_ifs) <;>
      simp_all

/-- C8: in every LED state reachable while AP_SETUP is active, indicator B
(LED_02) is driven high only during the BLINK2_ON phase; the phases advance
in the fixed order with dwell times 200, 200, 200, 200, 1200 ms (2000 ms per
cycle, of which BLINK2_ON is 200 ms), the phase-start timestamp being stamped
with the tick time at each advance; and entry into AP_SETUP via
`startCaptiveAP` resets the phase to BLINK1_ON with the phase start set to
now. -/
theorem setupPattern_led2_only_blink2 :
    (∀ s, LedReachable s → s.led2 = true → s.phase = SetupPhase.BLINK2_ON) ∧
    (∀ (now : Nat) (s : LedState), s.phase ≠ SetupPhase.IDLE →
      (showSetupPattern now s).phase =
        (if phaseDuration s.phase ≤ now - s.phaseStart then nextPhase s.phase
         else s.phase) ∧
      (showSetupPattern now s).phaseStart =
        (if phaseDuration s.phase ≤ now - s.phaseStart then now
         else s.phaseStart)) ∧
    phaseDuration SetupPhase.BLINK2_ON = 200 ∧
    phaseDuration SetupPhase.BLINK1_ON + phaseDuration SetupPhase.BLINK1_OFF +
      phaseDuration SetupPhase.BLINK2_ON + phaseDuration SetupPhase.BLINK2_OFF +
      phaseDuration SetupPhase.PAUSE = 2000 ∧
    (∀ (now : Nat) (s : LedState),
      (startCaptiveAPLed now s).phase = SetupPhase.BLINK1_ON ∧
      (startCaptiveAPLed now s).phaseStart = now) := by
  refine ⟨?_, ?_, rfl, rfl, fun now s => ⟨rfl, rfl⟩⟩
  · intro s hreach
    induction hreach with
    | entry now b1 => simp
    | step now s hs ih => exact showSetupPattern_led2_inv now s ih
  · intro now s hidle
    cases s with
    | mk phase phaseStart led1 led2 =>
      cases phase <;>
        simp only [showSetupPattern, phaseDuration, nextPhase] <;>
        split_ifs <;>
        simp_all

/-- C8 witness: two ticks from the entry state reach BLINK2_ON with B high,
and the invariant instantiated there; a PAUSE state advances to BLINK1_ON
exactly at 1200 ms; entry stamps BLINK1_ON and the entry time. -/
theorem setupPattern_led2_only_blink2_witness :
    (showSetupPattern 400 (showSetupPattern 200
       ⟨SetupPhase.BLINK1_ON, 0, false, false⟩)).phase = SetupPhase.BLINK2_ON ∧
    ((showSetupPattern 1200 ⟨SetupPhase.PAUSE, 0, false, false⟩).phase =
       (if phaseDuration SetupPhase.PAUSE ≤ 1200 - 0 then
          nextPhase SetupPhase.PAUSE else SetupPhase.PAUSE) ∧
     (showSetupPattern 1200 ⟨SetupPhase.PAUSE, 0, false, false⟩).phaseStart =
       (if phaseDuration SetupPhase.PAUSE ≤ 1200 - 0 then 1200 else 0)) ∧
    (startCaptiveAPLed 77 ⟨SetupPhase.PAUSE, 3, true, false⟩).phase =
      SetupPhase.BLINK1_ON ∧
    (startCaptiveAPLed 77 ⟨SetupPhase.PAUSE, 3, true, false⟩).phaseStart = 77 :=
  ⟨setupPattern_led2_only_blink2.1
     (showSetupPattern 400 (showSetupPattern 200
        ⟨SetupPhase.BLINK1_ON, 0, false, false⟩))
     (LedReachable.step 400 _ (LedReachable.step 200 _ (LedReachable.entry 0 false)))
     (by decide),
   setupPattern_led2_only_blink2.2.1 1200 ⟨SetupPhase.PAUSE, 0, false, false⟩
     (by decide),
   (setupPattern_led2_only_blink2.2.2.2.2 77 ⟨SetupPhase.PAUSE, 3, true, false⟩).1,
   (setupPattern_led2_only_blink2.2.2.2.2 77 ⟨SetupPhase.PAUSE, 3, true, false⟩).2⟩

set_option maxRecDepth 8000 in
/-- One `loopStep` preserves "a pending shutdown deadline implies CONNECTED". -/
theorem loopStep_deadline_inv (env : Env) (s : Sys)
    (hs : s.apShutdownAt ≠ 0 → s.runState = RunState.CONNECTED) :
    (loopStep env s).1.apShutdownAt ≠ 0 →
      (loopStep env s).1.runState = RunState.CONNECTED := by
  by_cases hap : s.runState = RunState.AP_SETUP
  · have h0 : s.apShutdownAt = 0 := by
      by_contra hne
      have h := hs hne
      rw [hap] at h
      exact absurd h (by decide)
    rcases hreq : env.request with _ | ⟨ssid, pass⟩
    · cases hc : env.connectOk <;>
      · simp [loopStep, hap, hreq, hc, h0]
        try (split_ifs <;> simp_all)
    · by_cases hv : ssid.length = 0 ∨ pass.length < 8
      · cases hc : env.connectOk <;>
        · simp [loopStep, hreq, hap, handleSave, hv, hc, h0]
      · cases hc : env.connectOk <;>
        · simp [loopStep, hreq, hap, handleSave, hv, hc, h0]
  · simp only [loopStep, hap]
    split_ifs <;> simp_all

/-- C9: in every reachable controller state a pending AP-shutdown deadline
(apShutdownAt ≠ 0) implies RunState = CONNECTED, so the CONNECTED conjunct of
the loop's shutdown branch never blocks a set deadline: whenever a reachable
state has a pending deadline that the tick's time has reached, the tick
clears it (after stopping the services). -/
theorem shutdown_deadline_implies_connected :
    (∀ s, Reachable s → s.apShutdownAt ≠ 0 → s.runState = RunState.CONNECTED) ∧
    (∀ (env : Env) (s : Sys), Reachable s → s.apShutdownAt ≠ 0 →
      s.apShutdownAt ≤ env.now → (loopStep env s).1.apShutdownAt = 0) := by
  have hinv : ∀ s, Reachable s → s.apShutdownAt ≠ 0 →
      s.runState = RunState.CONNECTED := by
    intro s hreach
    induction hreach with
    | boot st connectOk now =>
      cases connectOk <;> simp [bootState]
    | step env s hs ih => exact loopStep_deadline_inv env s ih
  refine ⟨hinv, ?_⟩
  intro env s hreach hne hle
  have hconn := hinv s hreach hne
  have hnap : s.runState ≠ RunState.AP_SETUP := by
    rw [hconn]; exact (by decide)
  simp [loopStep, hnap, hconn, hne, hle]

/-- C9 witness: booting unprovisioned into AP_SETUP and saving valid
credentials with a successful connection yields a reachable state with a
pending deadline, which the invariant reports as CONNECTED; a further tick at
the deadline clears it. -/
theorem shutdown_deadline_implies_connected_witness :
    (loopStep ⟨5, some ("Net", "password1"), true, "10.0.0.2"⟩
       (bootState ⟨"a", "b", 0⟩ false 0).1).1.runState = RunState.CONNECTED ∧
    (loopStep ⟨40005, none, false, ""⟩
       (loopStep ⟨5, some ("Net", "password1"), true, "10.0.0.2"⟩
          (bootState ⟨"a", "b", 0⟩ false 0).1).1).1.apShutdownAt = 0 :=
  ⟨shutdown_deadline_implies_connected.1 _
     (Reachable.step ⟨5, some ("Net", "password1"), true, "10.0.0.2"⟩ _
        (Reachable.boot ⟨"a", "b", 0⟩ false 0))
     (by decide),
   shutdown_deadline_implies_connected.2 ⟨40005, none, false, ""⟩ _
     (Reachable.step ⟨5, some ("Net", "password1"), true, "10.0.0.2"⟩ _
        (Reachable.boot ⟨"a", "b", 0⟩ false 0))
     (by decide) (by decide)⟩

end Modulux
